import Mathlib

/-!
Verification development for the SLP token precondition checker
(`electroncash/slp_checker.py`) and the NFT1 child-token DAG validators
(`electroncash/slp_validator_0x01_nft1.py` and the older
`lib/slp_validator_0x01_nft1.py`).

The SLP message parser (`slp.py`, `SlpMessage.parseSlpOutputScript`) is not
part of the analysed sources; following its documented behaviour, a parse of a
transaction's first output either yields a structured message (with
transaction type GENESIS, MINT, SEND or COMMIT), or fails with
`SlpInvalidOutputMessage`, or fails with `SlpUnsupportedSlpTokenType` (both of
which derive from `SlpParsingError`).  Each modelled transaction therefore
carries the parse outcome of its first output as a field.
-/

namespace Slp

/-- Transaction kinds produced by the SLP parser. -/
inductive TxnType where
  | GENESIS
  | MINT
  | SEND
  | COMMIT
deriving DecidableEq, Repr

/-- The `op_return_fields` of a parsed SLP message, flattened into one record.
Only the fields consulted by the analysed code are modelled; quantities are
nonnegative integers as produced by the parser. -/
structure SlpMsg where
  token_type : ℕ
  transaction_type : TxnType
  token_id_hex : ℕ
  token_output : List ℕ
  mint_baton_vout : Option ℕ
  decimals : ℕ
  initial_token_mint_quantity : ℕ
  additional_token_quantity : ℕ
deriving DecidableEq, Repr

/-- Outcome of `SlpMessage.parseSlpOutputScript` on a transaction's first
output: a message, an `SlpInvalidOutputMessage` error, or an
`SlpUnsupportedSlpTokenType` error. -/
inductive ParseOutcome where
  | ok (m : SlpMsg)
  | invalid
  | unsupported
deriving DecidableEq, Repr

/-- The `kind` of a transaction output's address (`Address.ADDR_P2PKH`,
`Address.ADDR_P2SH`, or anything else such as a script/op_return carrier). -/
inductive AddrKind where
  | p2pkh
  | p2sh
  | script
deriving DecidableEq, Repr

/-- One transaction output as consulted by the checker: `typ` is the output
type tag (`2` = TYPE_SCRIPT for the op_return carrier at index 0) and `kind`
the address kind. -/
structure TxOutput where
  typ : ℕ
  kind : AddrKind
deriving DecidableEq, Repr

/-- One transaction input (`txo['address']`, `txo['prevout_hash']`,
`txo['prevout_n']`).  Hashes and addresses are abstracted to numbers. -/
structure TxInput where
  address : ℕ
  prevout_hash : ℕ
  prevout_n : ℕ
deriving DecidableEq, Repr

/-- A transaction as consulted by the analysed code: its id, inputs, outputs,
and the parse outcome of its first output's script. -/
structure Tx where
  txid : ℕ
  inputs : List TxInput
  outputs : List TxOutput
  out0parse : ParseOutcome
deriving DecidableEq, Repr

/-- A wallet-tracked token output record (`wallet._slp_txo[...]` value):
`qty` is either an integer amount or the `'MINT_BATON'` marker. -/
inductive Qty where
  | int (n : ℕ)
  | mintBaton
deriving DecidableEq, Repr

/-- Value stored in `wallet._slp_txo[addr][prev_out][prev_n]`. -/
structure SlpTxo where
  qty : Qty
  token_id : ℕ
deriving DecidableEq, Repr

/-- Wallet state consulted by `check_tx_slp`: the transaction store and the
token-output table, keyed by (address, prevout hash, prevout index). -/
structure CWallet where
  transactions : List (ℕ × Tx)
  slp_txo : List ((ℕ × ℕ × ℕ) × SlpTxo)
deriving DecidableEq, Repr

/-- The `amt_to_burn` argument: Python permits `None`, an `int`, or any other
value; `nonInt` records only the truthiness of such a value. -/
inductive BurnAmt where
  | none
  | int (n : ℤ)
  | nonInt (truthy : Bool)
deriving DecidableEq, Repr

/-- `isinstance(amt_to_burn, int)`. -/
def BurnAmt.isInt : BurnAmt → Bool
  | .int _ => true
  | _ => false

/-- Python truthiness of `amt_to_burn`. -/
def BurnAmt.truthy : BurnAmt → Bool
  | .none => false
  | .int n => n ≠ 0
  | .nonInt t => t

/-- Integer value of `amt_to_burn`; only consulted on paths where the leading
guard has established that it is an `int`. -/
def BurnAmt.toInt : BurnAmt → ℤ
  | .int n => n
  | _ => 0

/-- One entry of the caller-supplied `coins_to_burn` list.  `token_value` is
absent, an integer, or the baton marker; `is_in_txn` is absent until the check
marks the coin as spent by the transaction. -/
structure BurnCoin where
  prevout_hash : ℕ
  prevout_n : ℕ
  token_value : Option Qty
  is_in_txn : Option Bool
deriving DecidableEq, Repr

/-- The closed set of failures `check_tx_slp` can raise.  `pyError` stands for
an uncaught Python-level error (assertion failure or IndexError). -/
inductive CheckErr where
  | invalidBurnAmount
  | walletMissingTx
  | unsupportedSlpTokenType
  | slpMissingInputRecord
  | nonSlpTransactionHasSlpInputs
  | missingCoinToBeBurned
  | slpWrongTokenID
  | slpInputsTooLow
  | slpInputsTooHigh
  | slpNonMintInput
  | missingMintBatonOutpoint
  | missingTokenReceiverOutpoint
  | badSlpOutpointType
  | preflightFailed
  | pyError
deriving DecidableEq, Repr

/-- Python truthiness of an optional integer field such as
`mint_baton_vout` (both `None` and `0` are falsy). -/
def optTruthy : Option ℕ → Bool
  | Option.none => false
  | Option.some n => n ≠ 0

/-- Step 1 relevance test of `check_tx_slp`: given the parsed message of an
input's source transaction, decide whether the spent outpoint `pn` is a
token-bearing outpoint that must appear in `wallet._slp_txo` (the chain of
`continue` statements at lines 38-56 of `slp_checker.py`). -/
def inputRelevant (msg : SlpMsg) (pn : ℕ) : Bool :=
  match msg.transaction_type with
  | .SEND =>
    if msg.token_output.length ≤ pn then false
    else if msg.token_output.getD pn 0 = 0 then false
    else true
  | .GENESIS =>
    if optTruthy msg.mint_baton_vout ∧ pn ≠ 1 ∧ pn ≠ msg.mint_baton_vout.getD 0 then false
    else if ¬ optTruthy msg.mint_baton_vout ∧ pn ≠ 1 then false
    else if pn = 1 ∧ msg.initial_token_mint_quantity = 0 then false
    else true
  | .MINT =>
    if optTruthy msg.mint_baton_vout ∧ pn ≠ 1 ∧ pn ≠ msg.mint_baton_vout.getD 0 then false
    else if ¬ optTruthy msg.mint_baton_vout ∧ pn ≠ 1 then false
    else if pn = 1 ∧ msg.additional_token_quantity = 0 then false
    else true
  | .COMMIT => true

/-- Step 1 check for a single input: the source transaction must be in the
wallet, and if it is a token transaction with a relevant outpoint at
`prevout_n`, that outpoint must be recorded in `wallet._slp_txo`. -/
def step1Check (w : CWallet) (inp : TxInput) : Except CheckErr Unit :=
  match w.transactions.lookup inp.prevout_hash with
  | Option.none => .error .walletMissingTx
  | Option.some itx =>
    match itx.outputs with
    | [] => .error .pyError
    | _ :: _ =>
      match itx.out0parse with
      | .invalid => .ok ()
      | .unsupported => .error .unsupportedSlpTokenType
      | .ok msg =>
        if inputRelevant msg inp.prevout_n then
          match w.slp_txo.lookup (inp.address, inp.prevout_hash, inp.prevout_n) with
          | Option.none => .error .slpMissingInputRecord
          | Option.some _ => .ok ()
        else .ok ()

/-- Step 1 loop over all inputs. -/
def step1 (w : CWallet) : List TxInput → Except CheckErr Unit
  | [] => .ok ()
  | i :: rest =>
    match step1Check w i with
    | .error e => .error e
    | .ok _ => step1 w rest

/-- Does some coin of `coins_to_burn` match the spent outpoint? -/
def coinsMatch (coins : List BurnCoin) (ph pn : ℕ) : Bool :=
  coins.any fun c => c.prevout_hash = ph ∧ c.prevout_n = pn

/-- Mark every coin of `coins_to_burn` matching the spent outpoint with
`is_in_txn = True` (the mutation `c['is_in_txn'] = True`). -/
def markCoins (coins : List BurnCoin) (ph pn : ℕ) : List BurnCoin :=
  coins.map fun c =>
    if c.prevout_hash = ph ∧ c.prevout_n = pn then { c with is_in_txn := Option.some true } else c

/-- Step 3a loop of `check_tx_slp` for a non-SLP transaction: every spent
wallet-tracked token outpoint must appear in the burn list; matching coins are
marked as spent.  Returns the updated burn list. -/
def step3aLoop (w : CWallet) (coins : List BurnCoin) :
    List TxInput → Except CheckErr (List BurnCoin)
  | [] => .ok coins
  | i :: rest =>
    match w.slp_txo.lookup (i.address, i.prevout_hash, i.prevout_n) with
    | Option.none => step3aLoop w coins rest
    | Option.some _ =>
      if coinsMatch coins i.prevout_hash i.prevout_n then
        step3aLoop w (markCoins coins i.prevout_hash i.prevout_n) rest
      else .error .nonSlpTransactionHasSlpInputs

/-- The burn-total loop of `check_tx_slp` (lines 97-109), faithful to the
source indentation: the comparison `total_burn != amt_to_burn` sits inside the
`for` loop and is skipped by the `continue` taken for every coin that is
marked spent and has an integer `token_value`. -/
def burnTotalLoop (amt : ℤ) : ℕ → List BurnCoin → Except CheckErr Unit
  | _, [] => .ok ()
  | total, c :: rest =>
    match c.is_in_txn with
    | Option.none => .error .missingCoinToBeBurned
    | Option.some b =>
      if b then
        match c.token_value with
        | Option.none => .error .missingCoinToBeBurned
        | Option.some (Qty.int n) => burnTotalLoop amt (total + n) rest
        | Option.some Qty.mintBaton =>
          if (total : ℤ) ≠ amt then .error .invalidBurnAmount
          else burnTotalLoop amt total rest
      else
        if (total : ℤ) ≠ amt then .error .invalidBurnAmount
        else burnTotalLoop amt total rest

/-- The SEND input-quantity loop (lines 122-141): sum the wallet-tracked
integer quantities of the spent token outpoints, failing on a token-id
mismatch (zero-quantity records are skipped before the id test). -/
def computeSendInputQty (w : CWallet) (tid : ℕ) : List TxInput → ℕ → Except CheckErr ℕ
  | [], acc => .ok acc
  | i :: rest, acc =>
    match w.slp_txo.lookup (i.address, i.prevout_hash, i.prevout_n) with
    | Option.none => computeSendInputQty w tid rest acc
    | Option.some si =>
      if si.qty = Qty.int 0 then computeSendInputQty w tid rest acc
      else
        let acc2 := match si.qty with
          | Qty.int n => acc + n
          | Qty.mintBaton => acc
        if si.token_id ≠ tid then .error .slpWrongTokenID
        else computeSendInputQty w tid rest acc2

/-- The SEND quantity conservation check (lines 143-151 of
`slp_checker.py`), exactly in source order: too-low inputs, then the burn
equation when a burn list is supplied, then too-high inputs when none is. -/
def sendQuantityCheck (iq : ℕ) (outs : List ℕ) (burn : Bool) (amt : ℤ) : Option CheckErr :=
  if iq < outs.sum then Option.some .slpInputsTooLow
  else if burn then
    if (iq : ℤ) - amt ≠ (outs.sum : ℤ) then Option.some .invalidBurnAmount else Option.none
  else if outs.sum < iq then Option.some .slpInputsTooHigh
  else Option.none

/-- SEND per-declared-output check (lines 153-167): the transaction output at
each declared index must exist; index 0 must be the TYPE_SCRIPT carrier
(`assert out[0] == 2`), later indices must be P2PKH or P2SH. -/
def checkOutAt (tx : Tx) (i : ℕ) : Except CheckErr Unit :=
  match tx.outputs.get? i with
  | Option.none => .error .missingTokenReceiverOutpoint
  | Option.some o =>
    if i = 0 then
      if o.typ = 2 then .ok () else .error .pyError
    else if o.kind = AddrKind.p2pkh ∨ o.kind = AddrKind.p2sh then .ok ()
    else .error .badSlpOutpointType

/-- Run `checkOutAt` over a list of indices, stopping at the first error. -/
def checkOutIdxs (tx : Tx) : List ℕ → Except CheckErr Unit
  | [] => .ok ()
  | i :: rest =>
    match checkOutAt tx i with
    | .error e => .error e
    | .ok _ => checkOutIdxs tx rest

/-- The MINT input loop (lines 174-193): any wallet-tracked non-zero,
non-baton token input is fatal; the baton must carry the declared token id. -/
def mintInputsCheck (w : CWallet) (tid : ℕ) : List TxInput → Except CheckErr Unit
  | [] => .ok ()
  | i :: rest =>
    match w.slp_txo.lookup (i.address, i.prevout_hash, i.prevout_n) with
    | Option.none => mintInputsCheck w tid rest
    | Option.some si =>
      if si.qty = Qty.int 0 then mintInputsCheck w tid rest
      else if si.qty ≠ Qty.mintBaton then .error .slpNonMintInput
      else if si.token_id ≠ tid then .error .slpWrongTokenID
      else mintInputsCheck w tid rest

/-- The GENESIS input loop (lines 200-222): every spent non-zero token
outpoint must be covered by the burn list (which gets marked), else fatal. -/
def genesisInputsLoop (w : CWallet) (coins : List BurnCoin) :
    List TxInput → Except CheckErr (List BurnCoin)
  | [] => .ok coins
  | i :: rest =>
    match w.slp_txo.lookup (i.address, i.prevout_hash, i.prevout_n) with
    | Option.none => genesisInputsLoop w coins rest
    | Option.some si =>
      if si.qty = Qty.int 0 then genesisInputsLoop w coins rest
      else if coinsMatch coins i.prevout_hash i.prevout_n then
        genesisInputsLoop w (markCoins coins i.prevout_hash i.prevout_n) rest
      else .error .nonSlpTransactionHasSlpInputs

/-- The GENESIS/MINT output block (lines 224-251), faithful to the source
indentation: both the baton-output check and the token-receiver-output check
are nested inside `if slp_msg.op_return_fields['mint_baton_vout']:`, so with
no declared baton neither output is checked. -/
def genesisMintOutputsCheck (tx : Tx) (baton : Option ℕ) : Except CheckErr Unit :=
  if optTruthy baton then
    match tx.outputs.get? (baton.getD 0) with
    | Option.none => .error .missingMintBatonOutpoint
    | Option.some o =>
      if ¬ (o.kind = AddrKind.p2pkh ∨ o.kind = AddrKind.p2sh) then .error .badSlpOutpointType
      else
        match tx.outputs.get? 1 with
        | Option.none => .error .missingTokenReceiverOutpoint
        | Option.some o1 =>
          if ¬ (o1.kind = AddrKind.p2pkh ∨ o1.kind = AddrKind.p2sh) then
            .error .badSlpOutpointType
          else .ok ()
  else .ok ()

/-- Step 3b of `check_tx_slp`: SLP-transaction-specific checks. -/
def step3b (w : CWallet) (tx : Tx) (coins : List BurnCoin) (amt : BurnAmt)
    (msg : SlpMsg) : Except CheckErr Unit :=
  match msg.transaction_type with
  | .SEND =>
    match computeSendInputQty w msg.token_id_hex tx.inputs 0 with
    | .error e => .error e
    | .ok iq =>
      match sendQuantityCheck iq msg.token_output (¬ coins.isEmpty) amt.toInt with
      | Option.some e => .error e
      | Option.none => checkOutIdxs tx (List.range msg.token_output.length)
  | .MINT =>
    match mintInputsCheck w msg.token_id_hex tx.inputs with
    | .error e => .error e
    | .ok _ => genesisMintOutputsCheck tx msg.mint_baton_vout
  | .GENESIS =>
    match genesisInputsLoop w coins tx.inputs with
    | .error e => .error e
    | .ok _ => genesisMintOutputsCheck tx msg.mint_baton_vout
  | .COMMIT => .ok ()

/-- `SlpTransactionChecker.check_tx_slp` (lines 11-261 of `slp_checker.py`).
`pfEnabled`/`pfOk` model the `networks.net.SLP_PREFLIGHT_CHECK` flag and the
external preflight oracle's verdict. -/
def check_tx_slp (w : CWallet) (tx : Tx) (coins : List BurnCoin) (amt : BurnAmt)
    (require pfEnabled pfOk : Bool) : Except CheckErr Bool :=
  if ¬ coins.isEmpty ∧ ¬ amt.isInt then .error .invalidBurnAmount
  else if amt.truthy ∧ coins.isEmpty then .error .invalidBurnAmount
  else
    match (if require then step1 w tx.inputs else .ok ()) with
    | .error e => .error e
    | .ok _ =>
      match tx.outputs with
      | [] => .error .pyError
      | _ :: _ =>
        match tx.out0parse with
        | .ok msg =>
          match step3b w tx coins amt msg with
          | .error e => .error e
          | .ok _ =>
            if pfEnabled ∧ ¬ pfOk then .error .preflightFailed else .ok true
        | _ =>
          match step3aLoop w coins tx.inputs with
          | .error e => .error e
          | .ok coins2 =>
            match (if ¬ coins2.isEmpty then burnTotalLoop amt.toInt 0 coins2 else .ok ()) with
            | .error e => .error e
            | .ok _ =>
              if pfEnabled ∧ ¬ pfOk then .error .preflightFailed else .ok true

/-! ## NFT1 child validator (`Validator_NFT1`) -/

/-- The `myinfo` slot of a classified node: the `'GENESIS'` sentinel or a
SEND output sum. -/
inductive MyInfo where
  | genesis
  | qty (n : ℕ)
deriving DecidableEq, Repr

/-- Result of `Validator_NFT1.get_info`: a prune with a reason code, or the
`(vin_mask, myinfo, outputs)` triple (output entries are `None` or an
integer quantity). -/
inductive GetInfoResult where
  | prune (reason : ℕ)
  | info (vin_mask : List Bool) (myinfo : MyInfo) (outputs : List (Option ℕ))
deriving DecidableEq, Repr

/-- `outputs[:len(txouts)]` padded with `None` up to `len(txouts)`. -/
def padOutputs (outs : List (Option ℕ)) (n : ℕ) : List (Option ℕ) :=
  outs.take n ++ List.replicate (n - outs.length) Option.none

/-- `Validator_NFT1.get_info` of the newer per-instance implementation
(`electroncash/slp_validator_0x01_nft1.py`, lines 243-325), with
`diff_testing_mode` at its default `False`. -/
def get_info_ec (token_id_hex : ℕ) (tx : Tx) : GetInfoResult :=
  match tx.outputs with
  | [] => .prune 2
  | _ :: _ =>
    match tx.out0parse with
    | .unsupported => .prune 0
    | .invalid => .prune 2
    | .ok m =>
      if m.token_type ≠ 65 then .prune 0
      else
        match m.transaction_type with
        | .SEND =>
          if m.token_id_hex ≠ token_id_hex then .prune 0
          else
            .info (List.replicate tx.inputs.length true) (.qty m.token_output.sum)
              (padOutputs (m.token_output.map Option.some) tx.outputs.length)
        | .GENESIS =>
          if m.mint_baton_vout ≠ Option.none then .prune 2
          else if m.decimals ≠ 0 then .prune 2
          else if m.initial_token_mint_quantity ≠ 1 then .prune 2
          else if tx.txid ≠ token_id_hex then .prune 0
          else
            .info (List.replicate tx.inputs.length false) .genesis
              (padOutputs [Option.none, Option.some m.initial_token_mint_quantity]
                tx.outputs.length)
        | .MINT => .prune 2
        | .COMMIT => .prune 0

/-- `Validator_NFT1.get_info` of the older module-global implementation
(`lib/slp_validator_0x01_nft1.py`, lines 212-290): identical to the newer one
except that SEND messages must declare exactly two token outputs with
quantity 1 at index 1, and that a GENESIS initial quantity of 0 is accepted
(only quantities `> 1` are pruned). -/
def get_info_lib (token_id_hex : ℕ) (tx : Tx) : GetInfoResult :=
  match tx.outputs with
  | [] => .prune 2
  | _ :: _ =>
    match tx.out0parse with
    | .unsupported => .prune 0
    | .invalid => .prune 2
    | .ok m =>
      if m.token_type ≠ 65 then .prune 0
      else
        match m.transaction_type with
        | .SEND =>
          if m.token_output.length ≠ 2 then .prune 2
          else if m.token_output.getD 1 0 ≠ 1 then .prune 2
          else if m.token_id_hex ≠ token_id_hex then .prune 0
          else
            .info (List.replicate tx.inputs.length true) (.qty m.token_output.sum)
              (padOutputs (m.token_output.map Option.some) tx.outputs.length)
        | .GENESIS =>
          if m.mint_baton_vout ≠ Option.none then .prune 2
          else if m.decimals ≠ 0 then .prune 2
          else if 1 < m.initial_token_mint_quantity then .prune 2
          else if tx.txid ≠ token_id_hex then .prune 0
          else
            .info (List.replicate tx.inputs.length false) .genesis
              (padOutputs [Option.none, Option.some m.initial_token_mint_quantity]
                tx.outputs.length)
        | .MINT => .prune 2
        | .COMMIT => .prune 0

/-- One entry of `inputs_info`: a `(vin, validity, contribution)` triple. -/
structure InputInfo where
  vin : ℕ
  validity : ℕ
  contribution : ℕ
deriving DecidableEq, Repr

/-- `sum(inp[2] for inp in inputs_info if inp[1] <= 1)`: contributions of
inputs still Unknown (0) or already Valid (1). -/
def insumAll (l : List InputInfo) : ℕ :=
  (l.map fun i => if i.validity ≤ 1 then i.contribution else 0).sum

/-- `sum(inp[2] for inp in inputs_info if inp[1] == 1)`: contributions of
inputs already Valid. -/
def insumValid (l : List InputInfo) : ℕ :=
  (l.map fun i => if i.validity = 1 then i.contribution else 0).sum

/-- Outcome of one `validate` call: a returned consensus result (`ret none`
is Pending), the parent-fetch side path (`validate_NFT_parent` is invoked and
`None` returned), or an uncaught Python exception. -/
inductive VResult where
  | ret (r : Option (Bool × ℕ))
  | fetchParent
  | raises
deriving DecidableEq, Repr

/-- The SEND decision arithmetic of the newer `Validator_NFT1.validate`
(`electroncash/slp_validator_0x01_nft1.py`, lines 546-563): insufficient
unknown-or-valid inputs are Invalid(3); a valid-input sum above 1 raises; a
valid-input sum covering the output sum is Valid; otherwise Pending. -/
def validateSend (m : ℕ) (inputs : List InputInfo) : VResult :=
  if insumAll inputs < m then .ret (Option.some (false, 3))
  else if 1 < insumValid inputs then .raises
  else if m ≤ insumValid inputs then .ret (Option.some (true, 1))
  else .ret Option.none

/-- The mutable slots of a `ValidationJobNFT1Child` consulted by the newer
validator: parent validity, forced-failure override, cached genesis and
parent transactions, and the root target txid. -/
structure NftJob where
  nft_parent_validity : ℕ
  forced_failure_val : Option ℕ
  genesis_tx : Option Tx
  nft_parent_tx : Option Tx
  root_txid : ℕ
deriving DecidableEq, Repr

/-- The newer `Validator_NFT1.validate`
(`electroncash/slp_validator_0x01_nft1.py`, lines 506-563), as a function of
the current NFT-child job's slots.  The `isinstance` job-type test is part of
the job-manager plumbing and is modelled by taking the child job itself as an
argument. -/
def validate_ec (job : NftJob) (myinfo : MyInfo) (inputs : List InputInfo) : VResult :=
  if 1 < job.nft_parent_validity then .ret (Option.some (false, job.nft_parent_validity))
  else if optTruthy job.forced_failure_val then
    .ret (Option.some (false, job.forced_failure_val.getD 0))
  else if myinfo = .qty 0 then .ret (Option.some (true, 1))
  else
    match job.nft_parent_tx with
    | Option.none => .fetchParent
    | Option.some ptx =>
      match ptx.outputs, ptx.out0parse with
      | [], _ => .raises
      | _ :: _, .invalid => .ret (Option.some (false, 4))
      | _ :: _, .unsupported => .raises
      | _ :: _, .ok pm =>
        if pm.transaction_type = .GENESIS ∧ pm.initial_token_mint_quantity < 1 then
          .ret (Option.some (false, 3))
        else if pm.transaction_type = .MINT ∧ pm.additional_token_quantity < 1 then
          .ret (Option.some (false, 3))
        else if pm.transaction_type = .SEND ∧ pm.token_output.sum < 1 then
          .ret (Option.some (false, 3))
        else
          match myinfo with
          | .genesis =>
            if ¬ inputs.isEmpty then .raises
            else if job.nft_parent_validity = 1 then .ret (Option.some (true, 1))
            else if 1 < job.nft_parent_validity then
              .ret (Option.some (false, job.nft_parent_validity))
            else .ret Option.none
          | .qty m => validateSend m inputs

/-! ## NFT1 parent resolution (`download_nft_parent_tx` / `start_NFT_parent_job`) -/

/-- One `wallet.tx_tokinfo` entry as written during parent resolution. -/
structure TokInfo where
  token_type : ℕ
  transaction_type : TxnType
  token_id : ℕ
  validity : ℕ
deriving DecidableEq, Repr

/-- Wallet tables touched by the NFT parent download callback. -/
structure NftWallet where
  transactions : List (ℕ × Tx)
  tx_tokinfo : List (ℕ × TokInfo)
deriving DecidableEq, Repr

/-- `if not wallet.transactions.get(txid): wallet.transactions[txid] = tx`. -/
def insertTxIfAbsent (w : NftWallet) (tx : Tx) : NftWallet :=
  if (w.transactions.lookup tx.txid).isNone then
    { w with transactions := (tx.txid, tx) :: w.transactions }
  else w

/-- The bad-parent classification of `download_nft_parent_tx`'s callback
(lines 399-410): the parent's first output fails to parse (the bare `except`
also swallows the IndexError of a missing first output), or the child
genesis's first input does not spend outpoint 1 of a GENESIS/MINT parent or a
declared output of a SEND parent, or the parent's token type is not 129. -/
def nftParentBad (ptx : Tx) (idx : ℕ) : Bool :=
  match ptx.outputs, ptx.out0parse with
  | [], _ => true
  | _ :: _, .invalid => true
  | _ :: _, .unsupported => true
  | _ :: _, .ok pm =>
    ((pm.transaction_type = .GENESIS ∨ pm.transaction_type = .MINT) ∧ idx ≠ 1)
      ∨ (pm.transaction_type = .SEND ∧ pm.token_output.length ≤ idx)
      ∨ pm.token_type ≠ 129

/-- The `tx_tokinfo` record written for a well-formed parent. -/
def parentTokInfo (ptx : Tx) (pm : SlpMsg) : TokInfo :=
  { token_type := pm.token_type
    transaction_type := pm.transaction_type
    token_id := if pm.transaction_type = .GENESIS then ptx.txid else pm.token_id_hex
    validity := 0 }

/-- The success path of `download_nft_parent_tx`'s callback
(`electroncash/slp_validator_0x01_nft1.py`, lines 386-423) on a fetched
parent transaction `ptx`, for a live wallet: stores the transaction if
absent; when no `tx_tokinfo` entry exists yet, classifies the parent, either
setting the job's parent validity to 4 (bad parent) or recording its token
info; finally caches the parent transaction on the job.  `Option.none` stands
for an uncaught error (the child genesis transaction missing or without
inputs, accessed outside the `try`). -/
def download_nft_parent_cb (w : NftWallet) (job : NftJob) (ptx : Tx) :
    Option (NftWallet × NftJob) :=
  let w2 := insertTxIfAbsent w ptx
  if (w2.tx_tokinfo.lookup ptx.txid).isSome then
    Option.some (w2, { job with nft_parent_tx := Option.some ptx })
  else
    match job.genesis_tx with
    | Option.none => Option.none
    | Option.some gtx =>
      match ptx.outputs, ptx.out0parse with
      | _ :: _, .ok pm =>
        match gtx.inputs with
        | [] => Option.none
        | gi :: _ =>
          if nftParentBad ptx gi.prevout_n then
            Option.some (w2,
              { job with nft_parent_validity := 4, nft_parent_tx := Option.some ptx })
          else
            Option.some
              ({ w2 with tx_tokinfo := (ptx.txid, parentTokInfo ptx pm) :: w2.tx_tokinfo },
               { job with nft_parent_tx := Option.some ptx })
      | _, _ =>
        Option.some (w2,
          { job with nft_parent_validity := 4, nft_parent_tx := Option.some ptx })

/-- What `start_NFT_parent_job` does next with the job. -/
inductive JobAction where
  | resumed (val : ℕ)
  | nestedParentJob
deriving DecidableEq, Repr

/-- The short-circuit head of `start_NFT_parent_job` (lines 436-446): when
the parent was classified invalid, emit the validity signals for the parent
transaction, the child genesis, and the root target, and resume the child job
with the forced value; otherwise launch the nested parent validation job.
Returns the emitted `(txid, validity)` signals and the continuation. -/
def start_NFT_parent_job_step (job : NftJob) (signalPresent : Bool) :
    List (ℕ × ℕ) × JobAction :=
  if 1 < job.nft_parent_validity then
    ((if signalPresent then
        [((job.nft_parent_tx.map Tx.txid).getD 0, job.nft_parent_validity),
         ((job.genesis_tx.map Tx.txid).getD 0, 4),
         (job.root_txid, 4)]
      else []),
     .resumed job.nft_parent_validity)
  else ([], .nestedParentJob)

/-! ## Concrete fixtures used by counterexamples and code-bug evaluations -/

/-- GENESIS message with initial mint quantity 1 and no baton. -/
def genesisMsg1 : SlpMsg :=
  { token_type := 65, transaction_type := .GENESIS, token_id_hex := 0,
    token_output := [], mint_baton_vout := Option.none, decimals := 0,
    initial_token_mint_quantity := 1, additional_token_quantity := 0 }

/-- A GENESIS candidate with only the metadata output: output index 1 is
missing. -/
def genesisTxNoReceiver : Tx :=
  { txid := 3, inputs := [], outputs := [{ typ := 2, kind := AddrKind.script }],
    out0parse := .ok genesisMsg1 }

/-- A non-token source transaction held by the wallet. -/
def plainTx1 : Tx :=
  { txid := 1, inputs := [], outputs := [{ typ := 2, kind := AddrKind.script }],
    out0parse := .invalid }

/-- A non-token candidate spending outpoint (1, 0) from address 0. -/
def burnCandidateTx : Tx :=
  { txid := 2, inputs := [{ address := 0, prevout_hash := 1, prevout_n := 0 }],
    outputs := [{ typ := 0, kind := AddrKind.p2pkh }], out0parse := .invalid }

/-- Wallet tracking outpoint (1, 0) as 5 token units of token 7. -/
def burnWallet : CWallet :=
  { transactions := [(1, plainTx1)],
    slp_txo := [((0, 1, 0), { qty := Qty.int 5, token_id := 7 })] }

/-- Burn list covering outpoint (1, 0) worth 5 units. -/
def burnCoins5 : List BurnCoin :=
  [{ prevout_hash := 1, prevout_n := 0, token_value := Option.some (Qty.int 5),
     is_in_txn := Option.none }]

/-- Sum of the `token_value` fields of the burn-list coins that are marked as
spent in the transaction (the quantity the claim requires to equal
`amt_to_burn`). -/
def markedBurnSum (coins : List BurnCoin) : ℕ :=
  (coins.map fun c =>
    match c.is_in_txn, c.token_value with
    | Option.some true, Option.some (Qty.int n) => n
    | _, _ => 0).sum

/-! ## Claims about the precondition checker -/

/-- C1: for a SEND candidate with wallet-tracked input sum `iq`, declared
outputs `outs` and (when a burn list is supplied) integer burn amount `amt`,
the quantity check of `check_tx_slp` raises `SlpInputsTooLow` when the input
sum is below the output sum; past that check, with a burn list it raises
`InvalidBurnAmount` unless input − burn equals the output sum exactly, and
without one it raises `SlpInputsTooHigh` when inputs exceed outputs; it
passes when inputs equal outputs (no burn) or input − burn equals outputs
(with burn).  The checks apply in source order. -/
theorem send_quantity_conservation (iq amt : ℕ) (outs : List ℕ) (burn : Bool) :
    (iq < outs.sum →
      sendQuantityCheck iq outs burn (amt : ℤ) = Option.some CheckErr.slpInputsTooLow)
  ∧ (outs.sum ≤ iq → (iq : ℤ) - (amt : ℤ) ≠ (outs.sum : ℤ) →
      sendQuantityCheck iq outs true (amt : ℤ) = Option.some CheckErr.invalidBurnAmount)
  ∧ (outs.sum < iq →
      sendQuantityCheck iq outs false (amt : ℤ) = Option.some CheckErr.slpInputsTooHigh)
  ∧ (iq = outs.sum → sendQuantityCheck iq outs false (amt : ℤ) = Option.none)
  ∧ ((iq : ℤ) - (amt : ℤ) = (outs.sum : ℤ) →
      sendQuantityCheck iq outs true (amt : ℤ) = Option.none) := by
  refine ⟨fun h => ?_, fun h1 h2 => ?_, fun h => ?_, fun h => ?_, fun h => ?_⟩
  · rw [sendQuantityCheck, if_pos h]
  · rw [sendQuantityCheck, if_neg (not_lt.mpr h1), if_pos h2]
    rfl
  · rw [sendQuantityCheck, if_neg (show ¬ iq < outs.sum by omega), if_pos h]
    rfl
  · rw [sendQuantityCheck, if_neg (show ¬ iq < outs.sum by omega),
      if_neg (show ¬ outs.sum < iq by omega)]
    rfl
  · rw [sendQuantityCheck, if_neg (show ¬ iq < outs.sum by omega),
      if_neg (not_not_intro h)]
    rfl

/-- Witness for C1, including the claim's concrete instances: input sum 100
with outputs [60, 40] and no burn passes; outputs [60, 50] raises
`SlpInputsTooLow`; outputs [60, 30] with a 10-unit burn passes (and with a
mismatched 5-unit declaration raises `InvalidBurnAmount`). -/
theorem send_quantity_conservation_witness :
    sendQuantityCheck 100 [60, 40] false (0 : ℤ) = Option.none
  ∧ sendQuantityCheck 100 [60, 50] false (0 : ℤ) = Option.some CheckErr.slpInputsTooLow
  ∧ sendQuantityCheck 100 [60, 30] true (10 : ℤ) = Option.none
  ∧ sendQuantityCheck 100 [60, 30] true (5 : ℤ) = Option.some CheckErr.invalidBurnAmount :=
  ⟨(send_quantity_conservation 100 0 [60, 40] false).2.2.2.1 (by decide),
   (send_quantity_conservation 100 0 [60, 50] false).1 (by decide),
   (send_quantity_conservation 100 10 [60, 30] true).2.2.2.2 (by decide),
   (send_quantity_conservation 100 5 [60, 30] true).2.1 (by decide) (by decide)⟩

/-- C9: the leading burn-argument guard of `check_tx_slp`: a non-empty
`coins_to_burn` without an integer `amt_to_burn`, or a nonzero `amt_to_burn`
without `coins_to_burn`, raises `InvalidBurnAmount` for every wallet and
transaction argument, before any other validation step. -/
theorem burn_args_guard (w : CWallet) (tx : Tx) (coins : List BurnCoin) (amt : BurnAmt)
    (require pfEnabled pfOk : Bool)
    (h : (¬ coins.isEmpty ∧ amt.isInt = false)
       ∨ (∃ n : ℤ, amt = .int n ∧ n ≠ 0 ∧ coins = [])) :
    check_tx_slp w tx coins amt require pfEnabled pfOk = .error CheckErr.invalidBurnAmount := by
  rcases h with ⟨h1, h2⟩ | ⟨n, h1, h2, h3⟩
  · simp only [check_tx_slp, h2]
    simp [h1]
  · subst h1 h3
    have ht : BurnAmt.truthy (.int n) = true := by
      simp [BurnAmt.truthy, h2]
    simp [check_tx_slp, ht, BurnAmt.isInt, List.isEmpty]

/-- Witness for C9 at concrete arguments: a nonzero integer burn amount with
an empty burn list. -/
theorem burn_args_guard_witness :
    check_tx_slp burnWallet burnCandidateTx [] (.int 5) true false false
      = .error CheckErr.invalidBurnAmount :=
  burn_args_guard burnWallet burnCandidateTx [] (.int 5) true false false
    (Or.inr ⟨5, rfl, by decide, rfl⟩)

/-- C2 (code bug): a GENESIS candidate declaring initial mint quantity 1 and
no baton, whose output index 1 is missing, passes `check_tx_slp` instead of
raising `MissingTokenReceiverOutpoint`: the receiver-output check is nested
inside the `if mint_baton_vout:` branch and is skipped when no baton is
declared. -/
theorem genesis_missing_receiver_accepted :
    genesisTxNoReceiver.outputs.get? 1 = Option.none
  ∧ check_tx_slp burnWallet genesisTxNoReceiver [] .none true false false = .ok true := by
  constructor
  · rfl
  · rfl

/-- C3 (code bug): a non-token transaction spending a 5-unit token outpoint
listed in `coins_to_burn` with a declared `amt_to_burn` of 10 passes
`check_tx_slp` even though the marked burn sum (5) differs from the declared
amount: the `total_burn != amt_to_burn` comparison sits inside the coin loop
and is skipped whenever every coin is marked spent with an integer value. -/
theorem burn_total_mismatch_accepted :
    markedBurnSum (markCoins burnCoins5 1 0) = 5
  ∧ (5 : ℤ) ≠ (10 : ℤ)
  ∧ check_tx_slp burnWallet burnCandidateTx burnCoins5 (.int 10) true false false
      = .ok true := by
  refine ⟨by rfl, by decide, by rfl⟩

/-! ## Claims about the NFT1 child validator decision logic -/

/-- C4: whenever the SEND decision arithmetic of the newer
`Validator_NFT1.validate` returns a consensus result `r` (rather than
raising), `r` is Invalid(3) when the unknown-or-valid input sum is below the
declared output sum `m`, Valid when the valid input sum reaches `m`, and
Pending (`None`) otherwise. -/
theorem nft1_send_decision (m : ℕ) (inputs : List InputInfo) (r : Option (Bool × ℕ))
    (h : validateSend m inputs = .ret r) :
    (insumAll inputs < m → r = Option.some (false, 3))
  ∧ (m ≤ insumAll inputs → m ≤ insumValid inputs → r = Option.some (true, 1))
  ∧ (m ≤ insumAll inputs → insumValid inputs < m → r = Option.none) := by
  refine ⟨fun hx => ?_, fun hx hv => ?_, fun hx hv => ?_⟩
  · rw [validateSend, if_pos hx] at h
    injection h with h
    exact h.symm
  · have hb : ¬ 1 < insumValid inputs := by
      intro hb
      rw [validateSend, if_neg (not_lt.mpr hx), if_pos hb] at h
      exact VResult.noConfusion h
    rw [validateSend, if_neg (not_lt.mpr hx), if_neg hb, if_pos hv] at h
    injection h with h
    exact h.symm
  · have hb : ¬ 1 < insumValid inputs := by
      intro hb
      rw [validateSend, if_neg (not_lt.mpr hx), if_pos hb] at h
      exact VResult.noConfusion h
    rw [validateSend, if_neg (not_lt.mpr hx), if_neg hb, if_neg (not_le.mpr hv)] at h
    injection h with h
    exact h.symm

/-- Witness for C4: a single valid input of 1 against output sum 1 is
decided Valid. -/
theorem nft1_send_decision_witness :
    validateSend 1 [⟨0, 1, 1⟩] = .ret (Option.some (true, 1))
  ∧ (Option.some (true, 1) : Option (Bool × ℕ)) = Option.some (true, 1) :=
  ⟨by decide,
   (nft1_send_decision 1 [⟨0, 1, 1⟩] (Option.some (true, 1)) (by decide)).2.1
     (by decide) (by decide)⟩

/-- C6 counterexample: with one valid input contributing 2 against output sum
3, the valid-input sum exceeds 1 yet validate returns Invalid(3) instead of
raising: the invariant check runs only after the insufficient-inputs test. -/
theorem nft1_overvalid_input_no_raise :
    1 < insumValid [⟨0, 1, 2⟩]
  ∧ validateSend 3 [⟨0, 1, 2⟩] = .ret (Option.some (false, 3))
  ∧ validateSend 3 [⟨0, 1, 2⟩] ≠ .raises := by decide

/-- C6 as amended: when the unknown-or-valid input sum is not below the
declared output sum (so the insufficient-inputs test does not fire first) and
the valid-input sum exceeds 1, the newer validate raises a programmer error
rather than returning a consensus result. -/
theorem nft1_overvalid_input_raises (m : ℕ) (inputs : List InputInfo)
    (h1 : ¬ insumAll inputs < m) (h2 : 1 < insumValid inputs) :
    validateSend m inputs = .raises := by
  rw [validateSend, if_neg h1, if_pos h2]

/-- Witness for the amended C6. -/
theorem nft1_overvalid_input_raises_witness :
    validateSend 1 [⟨0, 1, 1⟩, ⟨1, 1, 2⟩] = .raises :=
  nft1_overvalid_input_raises 1 [⟨0, 1, 1⟩, ⟨1, 1, 2⟩] (by decide) (by decide)

/-- C10: when the current NFT-child job records no parent invalidity and no
forced failure, a SEND whose declared output sum is 0 is returned Valid
immediately, for every `inputs_info` and regardless of the cached genesis and
parent transactions (in particular no parent fetch is triggered). -/
theorem nft1_zero_output_send_valid (job : NftJob) (inputs : List InputInfo)
    (h1 : job.nft_parent_validity ≤ 1) (h2 : optTruthy job.forced_failure_val = false) :
    validate_ec job (.qty 0) inputs = .ret (Option.some (true, 1)) := by
  rw [validate_ec, if_neg (not_lt.mpr h1), if_neg (by simp [h2]), if_pos rfl]

/-- Witness for C10: a fresh child job (no parent data cached at all). -/
theorem nft1_zero_output_send_valid_witness :
    validate_ec ⟨0, Option.none, Option.none, Option.none, 7⟩ (.qty 0) []
      = .ret (Option.some (true, 1)) :=
  nft1_zero_output_send_valid ⟨0, Option.none, Option.none, Option.none, 7⟩ []
    (by decide) (by decide)

/-- C5: for a GENESIS transaction that parses as token type 65 and matches
the validator's token id, the newer `get_info` prunes as malformed exactly
when a mint baton is declared, the decimals are nonzero, or the initial mint
quantity differs from 1; otherwise it classifies the node with no relevant
inputs and the GENESIS sentinel as own contribution. -/
theorem nft1_genesis_classification (tid : ℕ) (tx : Tx) (m : SlpMsg)
    (ho : tx.outputs ≠ []) (hp : tx.out0parse = .ok m) (ht : m.token_type = 65)
    (hg : m.transaction_type = .GENESIS) (hid : tx.txid = tid) :
    (get_info_ec tid tx = .prune 2 ↔
      (m.mint_baton_vout ≠ Option.none ∨ m.decimals ≠ 0
        ∨ m.initial_token_mint_quantity ≠ 1))
  ∧ (m.mint_baton_vout = Option.none → m.decimals = 0 →
      m.initial_token_mint_quantity = 1 →
      get_info_ec tid tx = .info (List.replicate tx.inputs.length false) .genesis
        (padOutputs [Option.none, Option.some 1] tx.outputs.length)) := by
  obtain ⟨txid0, ins, outs, p0⟩ := tx
  simp only at hp hid ho ⊢
  subst hp hid
  cases outs with
  | nil => exact absurd rfl ho
  | cons o os =>
    have hred : ∀ u : List TxOutput, u = o :: os →
        get_info_ec txid0 ⟨txid0, ins, u, .ok m⟩ =
        (if m.mint_baton_vout ≠ Option.none then .prune 2
         else if m.decimals ≠ 0 then .prune 2
         else if m.initial_token_mint_quantity ≠ 1 then .prune 2
         else .info (List.replicate ins.length false) .genesis
           (padOutputs [Option.none, Option.some m.initial_token_mint_quantity]
             u.length)) := by
      intro u hu
      subst hu
      rw [get_info_ec]
      simp [ht, hg]
    rw [hred (o :: os) rfl]
    constructor
    · constructor
      · intro hres
        by_contra hcon
        push_neg at hcon
        obtain ⟨b1, b2, b3⟩ := hcon
        rw [if_neg (not_not_intro b1), if_neg (not_not_intro b2),
          if_neg (not_not_intro b3)] at hres
        exact GetInfoResult.noConfusion hres
      · intro hcon
        rcases hcon with b1 | b2 | b3
        · rw [if_pos b1]
        · by_cases hb : m.mint_baton_vout = Option.none
          · rw [if_neg (not_not_intro hb), if_pos b2]
          · rw [if_pos hb]
        · by_cases hb : m.mint_baton_vout = Option.none
          · by_cases hd : m.decimals = 0
            · rw [if_neg (not_not_intro hb), if_neg (not_not_intro hd), if_pos b3]
            · rw [if_neg (not_not_intro hb), if_pos hd]
          · rw [if_pos hb]
    · intro e1 e2 e3
      rw [if_neg (not_not_intro e1), if_neg (not_not_intro e2),
        if_neg (not_not_intro e3), e3]

/-- A well-formed NFT child genesis transaction: unit supply, zero decimals,
no baton, one input and one (metadata) output. -/
def childGenesisTx : Tx :=
  { txid := 3, inputs := [⟨0, 9, 1⟩], outputs := [{ typ := 2, kind := AddrKind.script }],
    out0parse := .ok genesisMsg1 }

/-- Witness for C5: the well-formed NFT child genesis is classified with no
relevant inputs and the GENESIS sentinel. -/
theorem nft1_genesis_classification_witness :
    get_info_ec 3 childGenesisTx = .info [false] .genesis [Option.none] :=
  (nft1_genesis_classification 3 childGenesisTx genesisMsg1
    (by decide) rfl rfl rfl rfl).2 rfl rfl rfl

/-- Inserting the fetched transaction never touches the `tx_tokinfo` table. -/
theorem insertTxIfAbsent_tokinfo (w : NftWallet) (tx : Tx) :
    (insertTxIfAbsent w tx).tx_tokinfo = w.tx_tokinfo := by
  rw [insertTxIfAbsent]
  split <;> rfl

/-- C7: during NFT-child parent resolution with a live wallet, when the
fetched parent is not yet classified (no `tx_tokinfo` entry) and it is a bad
parent — its first output does not parse, its token type is not 129, or the
child genesis's first input does not spend the expected outpoint (index 1 for
GENESIS/MINT parents, a declared output index for SEND parents) — the
download callback sets the job's parent validity to `InvalidBadParent` (4)
and caches the parent, after which `start_NFT_parent_job` emits that code for
the parent transaction, the child genesis, and the original root target, and
resumes the child job with the forced value 4. -/
theorem nft_bad_parent_propagation (w : NftWallet) (pv : ℕ) (ff : Option ℕ)
    (pt : Option Tx) (rt : ℕ) (ptx : Tx) (gtid : ℕ) (gi : TxInput)
    (grest : List TxInput) (gouts : List TxOutput) (gp : ParseOutcome)
    (hti : w.tx_tokinfo.lookup ptx.txid = Option.none)
    (hbad : nftParentBad ptx gi.prevout_n = true) :
    download_nft_parent_cb w ⟨pv, ff, Option.some ⟨gtid, gi :: grest, gouts, gp⟩, pt, rt⟩ ptx
      = Option.some (insertTxIfAbsent w ptx,
        ⟨4, ff, Option.some ⟨gtid, gi :: grest, gouts, gp⟩, Option.some ptx, rt⟩)
  ∧ start_NFT_parent_job_step
      ⟨4, ff, Option.some ⟨gtid, gi :: grest, gouts, gp⟩, Option.some ptx, rt⟩ true
      = ([(ptx.txid, 4), (gtid, 4), (rt, 4)], .resumed 4) := by
  constructor
  · rw [download_nft_parent_cb]
    simp only [insertTxIfAbsent_tokinfo, hti]
    rcases hx : ptx.outputs with _ | ⟨o, os⟩ <;>
      rcases hp : ptx.out0parse with m | _ | _ <;>
      first
        | rfl
        | (simp only [Option.isSome_none, Bool.false_eq_true, if_false]
           rw [if_pos hbad])
  · rw [start_NFT_parent_job_step, if_pos (by norm_num)]
    rfl

/-- A child genesis whose first input spends outpoint 0 of transaction 20. -/
def childGenesisOfParent : Tx :=
  { txid := 10, inputs := [⟨0, 20, 0⟩], outputs := [{ typ := 2, kind := AddrKind.script }],
    out0parse := .ok genesisMsg1 }

/-- A group GENESIS message of token type 129. -/
def groupGenesisMsg : SlpMsg :=
  { token_type := 129, transaction_type := .GENESIS, token_id_hex := 0,
    token_output := [], mint_baton_vout := Option.none, decimals := 0,
    initial_token_mint_quantity := 100, additional_token_quantity := 0 }

/-- A candidate parent transaction: a group genesis, but the child genesis
spends its outpoint 0 instead of the expected outpoint 1. -/
def badParentTx : Tx :=
  { txid := 20, inputs := [], outputs := [{ typ := 2, kind := AddrKind.script }],
    out0parse := .ok groupGenesisMsg }

/-- An NFT-child job whose genesis is cached and whose root target is 99. -/
def childJobFixture : NftJob :=
  { nft_parent_validity := 0, forced_failure_val := Option.none,
    genesis_tx := Option.some childGenesisOfParent, nft_parent_tx := Option.none,
    root_txid := 99 }

/-- Witness for C7: the bad parent (wrong spent outpoint) forces validity 4,
which is emitted for the parent, the genesis, and the root target, and the
job resumes with 4. -/
theorem nft_bad_parent_propagation_witness :
    download_nft_parent_cb ⟨[], []⟩ childJobFixture badParentTx =
      Option.some (insertTxIfAbsent ⟨[], []⟩ badParentTx,
        { childJobFixture with nft_parent_validity := 4,
                               nft_parent_tx := Option.some badParentTx })
  ∧ start_NFT_parent_job_step
      { childJobFixture with nft_parent_validity := 4,
                             nft_parent_tx := Option.some badParentTx } true
      = ([(20, 4), (10, 4), (99, 4)], .resumed 4) :=
  nft_bad_parent_propagation ⟨[], []⟩ 0 Option.none Option.none 99 badParentTx 10
    ⟨0, 20, 0⟩ [] [{ typ := 2, kind := AddrKind.script }] (.ok genesisMsg1)
    rfl (by decide)

/-! ## Comparing the two `get_info` implementations (migration claim) -/

/-- The exact set of transactions on which the two `get_info` versions
disagree: type-65 SEND messages whose declared output list does not have
exactly two entries with quantity 1 at index 1 (pruned only by the older
version), and type-65 GENESIS messages with no baton, zero decimals and
initial quantity 0 (pruned only by the newer version). -/
def getInfoDivergent (tx : Tx) : Bool :=
  match tx.outputs, tx.out0parse with
  | _ :: _, .ok m =>
    m.token_type = 65 ∧
      ((m.transaction_type = .SEND ∧
          (m.token_output.length ≠ 2 ∨ m.token_output.getD 1 0 ≠ 1))
        ∨ (m.transaction_type = .GENESIS ∧ m.mint_baton_vout = Option.none ∧
            m.decimals = 0 ∧ m.initial_token_mint_quantity = 0))
  | _, _ => false

/-- A GENESIS message identical to `genesisMsg1` but with initial mint
quantity 0. -/
def genesisMsg0 : SlpMsg :=
  { genesisMsg1 with initial_token_mint_quantity := 0 }

/-- A genesis transaction with initial mint quantity 0 for token id 5. -/
def genesisQty0Tx : Tx :=
  { txid := 5, inputs := [⟨0, 0, 0⟩], outputs := [{ typ := 2, kind := AddrKind.script }],
    out0parse := .ok genesisMsg0 }

/-- C8 counterexample: on a type-65 GENESIS with initial mint quantity 0 the
older `get_info` classifies the node while the newer one prunes it as
malformed, so the two implementations do not compute the same
classification. -/
theorem get_info_versions_differ :
    get_info_lib 5 genesisQty0Tx = .info [false] .genesis [Option.none]
  ∧ get_info_ec 5 genesisQty0Tx = .prune 2
  ∧ get_info_lib 5 genesisQty0Tx ≠ get_info_ec 5 genesisQty0Tx := by decide

/-- C8 as amended: outside the divergence set of `getInfoDivergent` —
type-65 SEND messages without exactly two declared outputs of quantity 1 at
index 1, and type-65 GENESIS messages with no baton, zero decimals and
initial quantity 0 — the older and the newer `get_info` return equal
results for every transaction and validator token id. -/
theorem get_info_migration_equivalence (tid : ℕ) (tx : Tx)
    (h : getInfoDivergent tx = false) :
    get_info_lib tid tx = get_info_ec tid tx := by
  obtain ⟨t0, ins, outs, p⟩ := tx
  cases outs with
  | nil => rfl
  | cons o os =>
    cases p with
    | invalid => rfl
    | unsupported => rfl
    | ok m =>
      obtain ⟨mtt, mty, mtid, mouts, mbav, mdec, miq, maq⟩ := m
      simp only [getInfoDivergent, decide_eq_false_iff_not, not_and, not_or,
        not_not] at h
      by_cases h65 : mtt = 65
      · subst h65
        have hx := h rfl
        cases mty with
        | SEND =>
          obtain ⟨hlen, h1⟩ := hx.1 rfl
          obtain ⟨a, b, hab⟩ := List.length_eq_two.mp hlen
          subst hab
          have hb : b = 1 := by simpa using h1
          subst hb
          simp [get_info_lib, get_info_ec]
        | GENESIS =>
          by_cases hb : mbav = Option.none
          · by_cases hd : mdec = 0
            · have hq : miq ≠ 0 := hx.2 rfl hb hd
              by_cases hq1 : miq = 1
              · subst hq1
                simp [get_info_lib, get_info_ec]
              · have h2 : 1 < miq := by omega
                simp [get_info_lib, get_info_ec, hb, hd, hq1, h2]
            · simp [get_info_lib, get_info_ec, hb, hd]
          · simp [get_info_lib, get_info_ec, hb]
        | MINT => rfl
        | COMMIT => rfl
      · simp [get_info_lib, get_info_ec, h65]

/-- Witness for the amended C8, at the well-formed NFT child genesis. -/
theorem get_info_migration_equivalence_witness :
    get_info_lib 3 childGenesisTx = get_info_ec 3 childGenesisTx :=
  get_info_migration_equivalence 3 childGenesisTx (by decide)

end Slp
